import Mathlib

/-!
# Gyro conditioning pipeline and PID sum limits

A shallow embedding of

* `src/main/sensors/gyro_filter_impl.h`: the gyro filter template
  `GYRO_FILTER_FUNCTION_NAME`, instantiated twice by its including file
  (once with `GYRO_FILTER_DEBUG_SET` storing debug values, once with it
  expanding to nothing);
* `src/main/flight/pid.h`: the PID constants and the data types
  `pidProfile_t` and `pidAxisData_t`.

The C code works on `float`.  The filter routine only moves values around
and hands them to function pointers and external routines, so it is embedded
over an arbitrary value type `V` with an arbitrary product `mul`; every
result about it therefore holds for any interpretation of the float
operations.  Equality of values is identity of the stored value.
-/

namespace GyroFilter

/-! ## Data model -/

/-- Axis index: `X = 0`, `Y = 1`, `Z = 2`, the range of the loop
`for (int axis = 0; axis < XYZ_AXIS_COUNT; axis++)`. -/
inductive Axis where
  | X
  | Y
  | Z
  deriving DecidableEq, Repr

/-- Numeric value of an axis index, as used for the debug slot. -/
def Axis.toNat : Axis → Nat
  | .X => 0
  | .Y => 1
  | .Z => 2

/-- A C array `T v[XYZ_AXIS_COUNT]`. -/
structure Vec3 (α : Type) where
  x : α
  y : α
  z : α
  deriving DecidableEq, Repr

/-- Array read `v[axis]`. -/
def Vec3.get {α : Type} (v : Vec3 α) : Axis → α
  | .X => v.x
  | .Y => v.y
  | .Z => v.z

/-- Array write `v[axis] = a`. -/
def Vec3.set {α : Type} (v : Vec3 α) (axis : Axis) (a : α) : Vec3 α :=
  match axis with
  | .X => { v with x := a }
  | .Y => { v with y := a }
  | .Z => { v with z := a }

/-- The debug modes named in the filter routine. -/
inductive debugType_e where
  | DEBUG_KALMAN
  | DEBUG_GYRO_RAW
  | DEBUG_GYRO_SCALED
  | DEBUG_FFT
  | DEBUG_FFT_FREQ
  | DEBUG_GYRO_FILTERED
  deriving DecidableEq, Repr

/-- The fields of `gyroSensor->gyroDev` the routine touches.
`V` is the type of `float` values, `R` the type of the raw ADC words. -/
structure gyroDev_t (V R : Type) where
  scale : V
  gyroADC : Vec3 V
  gyroADCf : Vec3 V
  gyroADCRaw : Vec3 R

/-- A filter apply function `float (*)(filter_t *filter, float input)`:
it reads and updates the filter state it is handed and returns the output
sample. -/
abbrev filterApplyFnPtr (F V : Type) : Type := F → V → F × V

/-- The fields of `gyroSensor_t` the routine touches.  Every filter state is
passed to its apply function as `(filter_t *)`, hence the single state type
`F`; `A` is the state of the spectral analyser. -/
structure gyroSensor_t (V R F A : Type) where
  gyroDev : gyroDev_t V R
  lowpassFilterApplyFn : filterApplyFnPtr F V
  lowpassFilter : Vec3 F
  lowpass2FilterApplyFn : filterApplyFnPtr F V
  lowpass2Filter : Vec3 F
  notchFilter1ApplyFn : filterApplyFnPtr F V
  notchFilter1 : Vec3 F
  notchFilter2ApplyFn : filterApplyFnPtr F V
  notchFilter2 : Vec3 F
  notchFilterDynApplyFn : filterApplyFnPtr F V
  notchFilterDyn : Vec3 F
  gyroAnalyseState : A

/-- A debug store `(mode, index, value)` acting on the debug state `D`. -/
abbrev debugSetFn (D W : Type) : Type := D → debugType_e → Nat → W → D

/-- What the routine uses and the header does not define: the float
product, the conversions feeding the debug macro, the build flag
`USE_GYRO_DATA_ANALYSE`, the result of `isDynamicFilterActive()` (a feature
flag, constant during a tick), and the external routines
`gyroDataAnalysePush`, `kalman_update` and `DEBUG_SET`.  `K` is the state
owned by the fusion stage, `D` the debug state, `W` a debug value. -/
structure Env (V R F A K D W : Type) where
  mul : V → V → V
  lrintf : V → W
  floatToDebug : V → W
  rawToDebug : R → W
  USE_GYRO_DATA_ANALYSE : Bool
  isDynamicFilterActive : Bool
  gyroDataAnalysePush : A → Axis → V → A
  kalman_update : K → Vec3 V → K × Vec3 V
  DEBUG_SET : debugSetFn D W

/-- Everything the routine can read or write: the sensor, the state of the
fusion stage and the debug values. -/
structure State (V R F A K D : Type) where
  gyroSensor : gyroSensor_t V R F A
  kalman : K
  debug : D

variable {V R F A K D W : Type}

/-- Dynamic filtering is active when the analyser is compiled in and
`isDynamicFilterActive()` holds. -/
def Env.dynamicActive (env : Env V R F A K D W) : Bool :=
  env.USE_GYRO_DATA_ANALYSE && env.isDynamicFilterActive

/-! ## The filter routine -/

/-- The body of the `for` loop of `GYRO_FILTER_FUNCTION_NAME` for one
`axis`. -/
def filterAxis (env : Env V R F A K D W) (GYRO_FILTER_DEBUG_SET : debugSetFn D W)
    (st : State V R F A K D) (axis : Axis) : State V R F A K D :=
  let gs := st.gyroSensor
  let dbg := GYRO_FILTER_DEBUG_SET st.debug .DEBUG_GYRO_RAW axis.toNat
    (env.rawToDebug (gs.gyroDev.gyroADCRaw.get axis))
  -- scale gyro output to degrees per second
  let gyroADCf := env.mul (gs.gyroDev.gyroADC.get axis) gs.gyroDev.scale
  let dbg := GYRO_FILTER_DEBUG_SET dbg .DEBUG_GYRO_SCALED axis.toNat (env.lrintf gyroADCf)
  let dbg :=
    if env.USE_GYRO_DATA_ANALYSE then
      if env.isDynamicFilterActive then
        if axis = .X then
          GYRO_FILTER_DEBUG_SET
            (GYRO_FILTER_DEBUG_SET dbg .DEBUG_FFT 0 (env.lrintf gyroADCf))
            .DEBUG_FFT_FREQ 3 (env.lrintf gyroADCf)
        else dbg
      else dbg
    else dbg
  -- apply static notch filters and software lowpass filters
  let r := gs.lowpass2FilterApplyFn (gs.lowpass2Filter.get axis) gyroADCf
  let gs := { gs with lowpass2Filter := gs.lowpass2Filter.set axis r.1 }
  let gyroADCf := r.2
  let r := gs.lowpassFilterApplyFn (gs.lowpassFilter.get axis) gyroADCf
  let gs := { gs with lowpassFilter := gs.lowpassFilter.set axis r.1 }
  let gyroADCf := r.2
  let r := gs.notchFilter1ApplyFn (gs.notchFilter1.get axis) gyroADCf
  let gs := { gs with notchFilter1 := gs.notchFilter1.set axis r.1 }
  let gyroADCf := r.2
  let r := gs.notchFilter2ApplyFn (gs.notchFilter2.get axis) gyroADCf
  let gs := { gs with notchFilter2 := gs.notchFilter2.set axis r.1 }
  let gyroADCf := r.2
  let dyn : gyroSensor_t V R F A × V × D :=
    if env.USE_GYRO_DATA_ANALYSE then
      if env.isDynamicFilterActive then
        let gs := { gs with
          gyroAnalyseState := env.gyroDataAnalysePush gs.gyroAnalyseState axis gyroADCf }
        let r := gs.notchFilterDynApplyFn (gs.notchFilterDyn.get axis) gyroADCf
        let gs := { gs with notchFilterDyn := gs.notchFilterDyn.set axis r.1 }
        let gyroADCf := r.2
        let dbg :=
          if axis = .X then GYRO_FILTER_DEBUG_SET dbg .DEBUG_FFT 1 (env.lrintf gyroADCf)
          else dbg
        (gs, gyroADCf, dbg)
      else (gs, gyroADCf, dbg)
    else (gs, gyroADCf, dbg)
  let gs := dyn.1
  let gyroADCf := dyn.2.1
  let dbg := dyn.2.2
  let dbg := GYRO_FILTER_DEBUG_SET dbg .DEBUG_GYRO_FILTERED axis.toNat (env.lrintf gyroADCf)
  let gs := { gs with gyroDev := { gs.gyroDev with gyroADCf := gs.gyroDev.gyroADCf.set axis gyroADCf } }
  { st with gyroSensor := gs, debug := dbg }

/-- The routine up to the end of its `for` loop: the unconditional
`DEBUG_SET(DEBUG_KALMAN, 0, ...)` followed by the loop body for `X`, `Y`,
`Z` in that order.  Its `gyroDev.gyroADCf` is the triple handed to the
fusion stage. -/
def filterPerAxis (env : Env V R F A K D W) (GYRO_FILTER_DEBUG_SET : debugSetFn D W)
    (st : State V R F A K D) : State V R F A K D :=
  let dbg := env.DEBUG_SET st.debug .DEBUG_KALMAN 0
    (env.floatToDebug
      (env.mul (st.gyroSensor.gyroDev.gyroADC.get .X) st.gyroSensor.gyroDev.scale))
  let st := { st with debug := dbg }
  [Axis.X, Axis.Y, Axis.Z].foldl (filterAxis env GYRO_FILTER_DEBUG_SET) st

/-- The tail of the routine: copy `gyroADCf` into `input`, call
`kalman_update(input, output)`, copy `output` back into `gyroADCf`. -/
def fusion (env : Env V R F A K D W) (st : State V R F A K D) : State V R F A K D :=
  let gs := st.gyroSensor
  let input : Vec3 V :=
    { x := gs.gyroDev.gyroADCf.get .X
      y := gs.gyroDev.gyroADCf.get .Y
      z := gs.gyroDev.gyroADCf.get .Z }
  let r := env.kalman_update st.kalman input
  let output := r.2
  let gyroADCf := gs.gyroDev.gyroADCf.set .X (output.get .X)
  let gyroADCf := gyroADCf.set .Y (output.get .Y)
  let gyroADCf := gyroADCf.set .Z (output.get .Z)
  { st with
    gyroSensor := { gs with gyroDev := { gs.gyroDev with gyroADCf := gyroADCf } },
    kalman := r.1 }

/-- The template `GYRO_FILTER_FUNCTION_NAME(gyroSensor_t *gyroSensor)`,
with the macro `GYRO_FILTER_DEBUG_SET` as a parameter. -/
def GYRO_FILTER_FUNCTION_NAME (env : Env V R F A K D W)
    (GYRO_FILTER_DEBUG_SET : debugSetFn D W) (st : State V R F A K D) : State V R F A K D :=
  fusion env (filterPerAxis env GYRO_FILTER_DEBUG_SET st)

/-- The instantiation whose `GYRO_FILTER_DEBUG_SET` expands to nothing. -/
def filterGyro (env : Env V R F A K D W) (st : State V R F A K D) : State V R F A K D :=
  GYRO_FILTER_FUNCTION_NAME env (fun d _ _ _ => d) st

/-- The instantiation whose `GYRO_FILTER_DEBUG_SET` is `DEBUG_SET`. -/
def filterGyroDebug (env : Env V R F A K D W) (st : State V R F A K D) : State V R F A K D :=
  GYRO_FILTER_FUNCTION_NAME env env.DEBUG_SET st

/-! ## The stage order, as the specification words it -/

/-- The scaled input sample of an axis, `gyroADC[axis] * scale`. -/
def scaledInput (env : Env V R F A K D W) (gs : gyroSensor_t V R F A) (axis : Axis) : V :=
  env.mul (gs.gyroDev.gyroADC.get axis) gs.gyroDev.scale

/-- The static chain of the specification for one axis:
`notch2(notch1(lowpass1(lowpass2(gyroADC[axis] * scale))))`, every stage
reading the state that the sensor holds for that axis. -/
def specStaticChain (env : Env V R F A K D W) (gs : gyroSensor_t V R F A) (axis : Axis) : V :=
  let lowpass2 := fun v => (gs.lowpass2FilterApplyFn (gs.lowpass2Filter.get axis) v).2
  let lowpass1 := fun v => (gs.lowpassFilterApplyFn (gs.lowpassFilter.get axis) v).2
  let notch1 := fun v => (gs.notchFilter1ApplyFn (gs.notchFilter1.get axis) v).2
  let notch2 := fun v => (gs.notchFilter2ApplyFn (gs.notchFilter2.get axis) v).2
  notch2 (notch1 (lowpass1 (lowpass2 (scaledInput env gs axis))))

/-- The input sample each static stage receives on an axis, in the order
lowpass2, lowpass1, notch 1, notch 2. -/
def specStageInput (env : Env V R F A K D W) (gs : gyroSensor_t V R F A) (axis : Axis) :
    V × V × V × V :=
  let i0 := scaledInput env gs axis
  let i1 := (gs.lowpass2FilterApplyFn (gs.lowpass2Filter.get axis) i0).2
  let i2 := (gs.lowpassFilterApplyFn (gs.lowpassFilter.get axis) i1).2
  let i3 := (gs.notchFilter1ApplyFn (gs.notchFilter1.get axis) i2).2
  (i0, i1, i2, i3)

/-- The dynamic notch of an axis applied to the output of static notch 2. -/
def specDynNotch (env : Env V R F A K D W) (gs : gyroSensor_t V R F A) (axis : Axis) : F × V :=
  gs.notchFilterDynApplyFn (gs.notchFilterDyn.get axis) (specStaticChain env gs axis)

/-- The value an axis has after its last filter stage: the dynamic notch
output when dynamic filtering is active, the output of static notch 2
otherwise. -/
def specPreFusion (env : Env V R F A K D W) (gs : gyroSensor_t V R F A) (axis : Axis) : V :=
  if env.dynamicActive then (specDynNotch env gs axis).2 else specStaticChain env gs axis

/-! ## Recording instance

The analyser and the fusion stage are external.  To count their calls, the
environment is instantiated so that each of them, besides doing what the
given routine does, appends its arguments to a list. -/

/-- The environment whose analyser and fusion stage also record their
calls. -/
def Env.recording (env : Env V R F A K D W) :
    Env V R F (A × List (Axis × V)) (K × List (Vec3 V)) D W :=
  { mul := env.mul
    lrintf := env.lrintf
    floatToDebug := env.floatToDebug
    rawToDebug := env.rawToDebug
    USE_GYRO_DATA_ANALYSE := env.USE_GYRO_DATA_ANALYSE
    isDynamicFilterActive := env.isDynamicFilterActive
    gyroDataAnalysePush := fun s axis v => (env.gyroDataAnalysePush s.1 axis v, s.2 ++ [(axis, v)])
    kalman_update := fun s input =>
      ((( env.kalman_update s.1 input).1, s.2 ++ [input]), (env.kalman_update s.1 input).2)
    DEBUG_SET := env.DEBUG_SET }

/-- The same state with empty call records attached. -/
def State.recording (st : State V R F A K D) :
    State V R F (A × List (Axis × V)) (K × List (Vec3 V)) D :=
  { gyroSensor :=
      { gyroDev := st.gyroSensor.gyroDev
        lowpassFilterApplyFn := st.gyroSensor.lowpassFilterApplyFn
        lowpassFilter := st.gyroSensor.lowpassFilter
        lowpass2FilterApplyFn := st.gyroSensor.lowpass2FilterApplyFn
        lowpass2Filter := st.gyroSensor.lowpass2Filter
        notchFilter1ApplyFn := st.gyroSensor.notchFilter1ApplyFn
        notchFilter1 := st.gyroSensor.notchFilter1
        notchFilter2ApplyFn := st.gyroSensor.notchFilter2ApplyFn
        notchFilter2 := st.gyroSensor.notchFilter2
        notchFilterDynApplyFn := st.gyroSensor.notchFilterDynApplyFn
        notchFilterDyn := st.gyroSensor.notchFilterDyn
        gyroAnalyseState := (st.gyroSensor.gyroAnalyseState, []) }
    kalman := (st.kalman, [])
    debug := st.debug }

/-! ## A concrete sensor

Integer-valued filters, used to evaluate the routine on explicit inputs. -/

/-- An apply function that leaves its state alone and returns its input: a
disabled stage. -/
def nullFilterApply : filterApplyFnPtr Int Int := fun s v => (s, v)

/-- An environment over the integers.  The analyser and the debug store
keep the list of what they were handed; the fusion stage keeps its previous
estimate and moves it half way to the new sample. -/
def exEnv (dyn : Bool) :
    Env Int Int Int (List (Axis × Int)) (Vec3 Int) (List (debugType_e × Nat × Int)) Int :=
  { mul := fun a b => a * b
    lrintf := fun v => v
    floatToDebug := fun v => v
    rawToDebug := fun r => r
    USE_GYRO_DATA_ANALYSE := true
    isDynamicFilterActive := dyn
    gyroDataAnalysePush := fun s axis v => s ++ [(axis, v)]
    kalman_update := fun k v =>
      (⟨(k.x + v.x) / 2, (k.y + v.y) / 2, (k.z + v.z) / 2⟩,
       ⟨(k.x + v.x) / 2, (k.y + v.y) / 2, (k.z + v.z) / 2⟩)
    DEBUG_SET := fun d mode index w => d ++ [(mode, index, w)] }

/-- A device with raw samples `(3, -5, 7)` and scale `2`. -/
def exDev : gyroDev_t Int Int :=
  { scale := 2
    gyroADC := ⟨3, -5, 7⟩
    gyroADCf := ⟨0, 0, 0⟩
    gyroADCRaw := ⟨30, -50, 70⟩ }

/-- A sensor whose five stages are all different and all stateful: each
stage stores its input and mixes the stored value into its output. -/
def exSensor : gyroSensor_t Int Int Int (List (Axis × Int)) :=
  { gyroDev := exDev
    lowpassFilterApplyFn := fun s v => (v, 2 * v + s)
    lowpassFilter := ⟨1, 2, 3⟩
    lowpass2FilterApplyFn := fun s v => (v, v + s)
    lowpass2Filter := ⟨10, 20, 30⟩
    notchFilter1ApplyFn := fun s v => (v, v - s)
    notchFilter1 := ⟨100, 200, 300⟩
    notchFilter2ApplyFn := fun s v => (v, 3 * v - s)
    notchFilter2 := ⟨1000, 2000, 3000⟩
    notchFilterDynApplyFn := fun s v => (v, 5 * v + s)
    notchFilterDyn := ⟨7, 8, 9⟩
    gyroAnalyseState := [] }

/-- The state around `exSensor`. -/
def exState : State Int Int Int (List (Axis × Int)) (Vec3 Int) (List (debugType_e × Nat × Int)) :=
  { gyroSensor := exSensor
    kalman := ⟨0, 0, 0⟩
    debug := [] }

/-- The same sensor with the other two axes, the raw words, the old
`gyroADCf`, the analyser, the fusion state and the debug values changed;
only what belongs to axis `Y` is kept. -/
def exStateOther :
    State Int Int Int (List (Axis × Int)) (Vec3 Int) (List (debugType_e × Nat × Int)) :=
  { gyroSensor :=
      { exSensor with
        gyroDev := { scale := 2, gyroADC := ⟨40, -5, -9⟩, gyroADCf := ⟨1, 1, 1⟩,
                     gyroADCRaw := ⟨0, 1, 2⟩ }
        lowpassFilter := ⟨11, 2, 13⟩
        lowpass2Filter := ⟨0, 20, 0⟩
        notchFilter1 := ⟨-1, 200, -3⟩
        notchFilter2 := ⟨5, 2000, 6⟩
        notchFilterDyn := ⟨70, 8, 90⟩
        gyroAnalyseState := [(Axis.Z, 4)] }
    kalman := ⟨9, 9, 9⟩
    debug := [(debugType_e.DEBUG_FFT, 2, 5)] }

/-- The state of `exState` with every stage disabled (`nullFilterApply`). -/
def exStateNull :
    State Int Int Int (List (Axis × Int)) (Vec3 Int) (List (debugType_e × Nat × Int)) :=
  { exState with
    gyroSensor :=
      { exSensor with
        lowpassFilterApplyFn := nullFilterApply
        lowpass2FilterApplyFn := nullFilterApply
        notchFilter1ApplyFn := nullFilterApply
        notchFilter2ApplyFn := nullFilterApply
        notchFilterDynApplyFn := nullFilterApply } }

end GyroFilter

/-! # PID constants and sum limits (`src/main/flight/pid.h`) -/

namespace Pid

def PIDSUM_LIMIT : Nat := 500

def PIDSUM_LIMIT_YAW : Nat := 400

def PIDSUM_LIMIT_MIN : Nat := 100

def PIDSUM_LIMIT_MAX : Nat := 1000

/-- The literal `0.032029f`, read as an exact rational. -/
def PTERM_SCALE : ℚ := 0.032029

/-- The literal `0.244381f`, read as an exact rational. -/
def ITERM_SCALE : ℚ := 0.244381

/-- The literal `0.000529f`, read as an exact rational. -/
def DTERM_SCALE : ℚ := 0.000529

/-- The literal `0.013754f`, read as an exact rational. -/
def FEEDFORWARD_SCALE : ℚ := 0.013754

/-- The indices of `pidData[3]`: `PID_ROLL`, `PID_PITCH`, `PID_YAW`, the
first three values of `pidIndex_e`. -/
inductive pidIndex_e where
  | PID_ROLL
  | PID_PITCH
  | PID_YAW
  deriving DecidableEq, Repr

inductive pidStabilisationState_e where
  | PID_STABILISATION_OFF
  | PID_STABILISATION_ON
  deriving DecidableEq, Repr

/-- The two `uint16_t` sum-limit fields of `pidProfile_t`; the other fields
of the profile play no part in what follows. -/
structure pidProfile_t where
  pidSumLimit : Nat
  pidSumLimitYaw : Nat
  deriving DecidableEq, Repr

/-- The struct `pidAxisData_t`, its `float` fields read as rationals. -/
structure pidAxisData_t where
  P : ℚ
  I : ℚ
  D : ℚ
  F : ℚ
  Sum : ℚ
  deriving DecidableEq, Repr

/-- The four contributions of one axis before summation. -/
structure pidTerms where
  P : ℚ
  I : ℚ
  D : ℚ
  F : ℚ
  deriving DecidableEq, Repr

/-- Modelled from the spec: the clamp used by the summation step and by
profile normalization (the maths helpers are not among the sources). -/
def constrainf (amt low high : ℚ) : ℚ :=
  if amt < low then low else if amt > high then high else amt

/-- Modelled from the spec: the sum limit of an axis, "clamp to configured
sum limit, with yaw using a distinct (tighter) limit". -/
def sumLimit (pidProfile : pidProfile_t) : pidIndex_e → Nat
  | .PID_ROLL => pidProfile.pidSumLimit
  | .PID_PITCH => pidProfile.pidSumLimit
  | .PID_YAW => pidProfile.pidSumLimitYaw

/-- Modelled from the spec: the summation and clamp step of `pidController`,
whose body (pid.c) is not among the sources; pid.h only declares it and
`pidData`.  "Sum = P + I + D + F ... clamp to configured sum limit"; with
stabilisation off "outputs are zero". -/
def pidController (pidProfile : pidProfile_t) (state : pidStabilisationState_e)
    (terms : pidIndex_e → pidTerms) (axis : pidIndex_e) : pidAxisData_t :=
  match state with
  | .PID_STABILISATION_OFF => { P := 0, I := 0, D := 0, F := 0, Sum := 0 }
  | .PID_STABILISATION_ON =>
    { P := (terms axis).P
      I := (terms axis).I
      D := (terms axis).D
      F := (terms axis).F
      Sum := constrainf ((terms axis).P + (terms axis).I + (terms axis).D + (terms axis).F)
        (-(sumLimit pidProfile axis : ℚ)) (sumLimit pidProfile axis) }

/-- Modelled from the spec: the integer clamp of profile normalization. -/
def constrain (amt low high : Nat) : Nat :=
  if amt < low then low else if amt > high then high else amt

/-- Modelled from the spec: profile normalization at load time, which is not
among the sources: a "sum limit configured outside min/max" is "normalized
(clamped)" into `[PIDSUM_LIMIT_MIN, PIDSUM_LIMIT_MAX]`. -/
def pidProfileNormalize (pidProfile : pidProfile_t) : pidProfile_t :=
  { pidSumLimit := constrain pidProfile.pidSumLimit PIDSUM_LIMIT_MIN PIDSUM_LIMIT_MAX
    pidSumLimitYaw := constrain pidProfile.pidSumLimitYaw PIDSUM_LIMIT_MIN PIDSUM_LIMIT_MAX }

/-- The default limits of a profile, `PIDSUM_LIMIT` and `PIDSUM_LIMIT_YAW`. -/
def defaultProfile : pidProfile_t :=
  { pidSumLimit := PIDSUM_LIMIT
    pidSumLimitYaw := PIDSUM_LIMIT_YAW }

end Pid

namespace GyroFilter

variable {V R F A K D W : Type}

/-! ## Lemmas on the per-axis loop -/

section Loop

variable (env : Env V R F A K D W) (dbg : debugSetFn D W) (st : State V R F A K D)

theorem filterPerAxis_gyroADCf_inactive (h : env.dynamicActive = false) (axis : Axis) :
    (filterPerAxis env dbg st).gyroSensor.gyroDev.gyroADCf.get axis
      = specStaticChain env st.gyroSensor axis := by
  unfold Env.dynamicActive at h
  cases h1 : env.USE_GYRO_DATA_ANALYSE <;> cases h2 : env.isDynamicFilterActive <;>
    simp [h1, h2] at h <;> cases axis <;>
    simp [filterPerAxis, filterAxis, specStaticChain, scaledInput, Vec3.get, Vec3.set, h1, h2]

theorem filterPerAxis_gyroADCf_active (h1 : env.USE_GYRO_DATA_ANALYSE = true)
    (h2 : env.isDynamicFilterActive = true) (axis : Axis) :
    (filterPerAxis env dbg st).gyroSensor.gyroDev.gyroADCf.get axis
      = (specDynNotch env st.gyroSensor axis).2 := by
  cases axis <;>
    simp [filterPerAxis, filterAxis, specDynNotch, specStaticChain, scaledInput,
      Vec3.get, Vec3.set, h1, h2]

theorem filterPerAxis_gyroADCf (axis : Axis) :
    (filterPerAxis env dbg st).gyroSensor.gyroDev.gyroADCf.get axis
      = specPreFusion env st.gyroSensor axis := by
  unfold specPreFusion
  cases h : env.dynamicActive
  · simpa using filterPerAxis_gyroADCf_inactive env dbg st h axis
  · have h12 : env.USE_GYRO_DATA_ANALYSE = true ∧ env.isDynamicFilterActive = true := by
      simpa [Env.dynamicActive] using h
    simpa using filterPerAxis_gyroADCf_active env dbg st h12.1 h12.2 axis

theorem filterPerAxis_analyse_inactive (h : env.dynamicActive = false) :
    (filterPerAxis env dbg st).gyroSensor.gyroAnalyseState = st.gyroSensor.gyroAnalyseState := by
  unfold Env.dynamicActive at h
  cases h1 : env.USE_GYRO_DATA_ANALYSE <;> cases h2 : env.isDynamicFilterActive <;>
    simp [h1, h2] at h <;>
    simp [filterPerAxis, filterAxis, h1, h2]

theorem filterPerAxis_analyse_active (h1 : env.USE_GYRO_DATA_ANALYSE = true)
    (h2 : env.isDynamicFilterActive = true) :
    (filterPerAxis env dbg st).gyroSensor.gyroAnalyseState
      = env.gyroDataAnalysePush
          (env.gyroDataAnalysePush
            (env.gyroDataAnalysePush st.gyroSensor.gyroAnalyseState
              .X (specStaticChain env st.gyroSensor .X))
            .Y (specStaticChain env st.gyroSensor .Y))
          .Z (specStaticChain env st.gyroSensor .Z) := by
  simp [filterPerAxis, filterAxis, specStaticChain, scaledInput, Vec3.get, Vec3.set, h1, h2]

theorem filterPerAxis_notchFilterDyn_inactive (h : env.dynamicActive = false) :
    (filterPerAxis env dbg st).gyroSensor.notchFilterDyn = st.gyroSensor.notchFilterDyn := by
  unfold Env.dynamicActive at h
  cases h1 : env.USE_GYRO_DATA_ANALYSE <;> cases h2 : env.isDynamicFilterActive <;>
    simp [h1, h2] at h <;>
    simp [filterPerAxis, filterAxis, h1, h2]

theorem filterPerAxis_notchFilterDyn_active (h1 : env.USE_GYRO_DATA_ANALYSE = true)
    (h2 : env.isDynamicFilterActive = true) (axis : Axis) :
    (filterPerAxis env dbg st).gyroSensor.notchFilterDyn.get axis
      = (specDynNotch env st.gyroSensor axis).1 := by
  cases axis <;>
    simp [filterPerAxis, filterAxis, specDynNotch, specStaticChain, scaledInput,
      Vec3.get, Vec3.set, h1, h2]

/-- After the loop every static stage state of an axis is the result of one
application of its apply function to the state before the tick. -/
theorem filterPerAxis_static_states (axis : Axis) :
    (filterPerAxis env dbg st).gyroSensor.lowpass2Filter.get axis
        = (st.gyroSensor.lowpass2FilterApplyFn (st.gyroSensor.lowpass2Filter.get axis)
            (specStageInput env st.gyroSensor axis).1).1
    ∧ (filterPerAxis env dbg st).gyroSensor.lowpassFilter.get axis
        = (st.gyroSensor.lowpassFilterApplyFn (st.gyroSensor.lowpassFilter.get axis)
            (specStageInput env st.gyroSensor axis).2.1).1
    ∧ (filterPerAxis env dbg st).gyroSensor.notchFilter1.get axis
        = (st.gyroSensor.notchFilter1ApplyFn (st.gyroSensor.notchFilter1.get axis)
            (specStageInput env st.gyroSensor axis).2.2.1).1
    ∧ (filterPerAxis env dbg st).gyroSensor.notchFilter2.get axis
        = (st.gyroSensor.notchFilter2ApplyFn (st.gyroSensor.notchFilter2.get axis)
            (specStageInput env st.gyroSensor axis).2.2.2).1 := by
  cases h1 : env.USE_GYRO_DATA_ANALYSE <;> cases h2 : env.isDynamicFilterActive <;>
    cases axis <;>
    simp [filterPerAxis, filterAxis, specStageInput, scaledInput, Vec3.get, Vec3.set, h1, h2]

/-- The loop leaves the inputs, the apply functions and the fusion state
alone. -/
theorem filterPerAxis_frame :
    (filterPerAxis env dbg st).gyroSensor.gyroDev.gyroADC = st.gyroSensor.gyroDev.gyroADC
    ∧ (filterPerAxis env dbg st).gyroSensor.gyroDev.gyroADCRaw = st.gyroSensor.gyroDev.gyroADCRaw
    ∧ (filterPerAxis env dbg st).gyroSensor.gyroDev.scale = st.gyroSensor.gyroDev.scale
    ∧ (filterPerAxis env dbg st).gyroSensor.lowpass2FilterApplyFn
        = st.gyroSensor.lowpass2FilterApplyFn
    ∧ (filterPerAxis env dbg st).gyroSensor.lowpassFilterApplyFn
        = st.gyroSensor.lowpassFilterApplyFn
    ∧ (filterPerAxis env dbg st).gyroSensor.notchFilter1ApplyFn
        = st.gyroSensor.notchFilter1ApplyFn
    ∧ (filterPerAxis env dbg st).gyroSensor.notchFilter2ApplyFn
        = st.gyroSensor.notchFilter2ApplyFn
    ∧ (filterPerAxis env dbg st).gyroSensor.notchFilterDynApplyFn
        = st.gyroSensor.notchFilterDynApplyFn
    ∧ (filterPerAxis env dbg st).kalman = st.kalman := by
  cases h1 : env.USE_GYRO_DATA_ANALYSE <;> cases h2 : env.isDynamicFilterActive <;>
    simp [filterPerAxis, filterAxis, h1, h2]

/-- The sensor after the loop does not depend on the debug macro. -/
theorem filterPerAxis_gyroSensor_debug (dbg2 : debugSetFn D W) :
    (filterPerAxis env dbg st).gyroSensor = (filterPerAxis env dbg2 st).gyroSensor := by
  cases h1 : env.USE_GYRO_DATA_ANALYSE <;> cases h2 : env.isDynamicFilterActive <;>
    simp [filterPerAxis, filterAxis, h1, h2]

end Loop

/-! ## Lemmas on the fusion stage and on the recording instance -/

section Fusion

variable (env : Env V R F A K D W) (st : State V R F A K D)

theorem fusion_kalman :
    (fusion env st).kalman
      = (env.kalman_update st.kalman
          ⟨st.gyroSensor.gyroDev.gyroADCf.get .X, st.gyroSensor.gyroDev.gyroADCf.get .Y,
           st.gyroSensor.gyroDev.gyroADCf.get .Z⟩).1 := rfl

theorem fusion_gyroADCf :
    (fusion env st).gyroSensor.gyroDev.gyroADCf
      = (env.kalman_update st.kalman
          ⟨st.gyroSensor.gyroDev.gyroADCf.get .X, st.gyroSensor.gyroDev.gyroADCf.get .Y,
           st.gyroSensor.gyroDev.gyroADCf.get .Z⟩).2 := by
  simp [fusion, Vec3.get, Vec3.set]

/-- The fusion stage writes `gyroADCf` and its own state, nothing else. -/
theorem fusion_frame :
    (fusion env st).gyroSensor.gyroDev.gyroADC = st.gyroSensor.gyroDev.gyroADC
    ∧ (fusion env st).gyroSensor.gyroDev.gyroADCRaw = st.gyroSensor.gyroDev.gyroADCRaw
    ∧ (fusion env st).gyroSensor.gyroDev.scale = st.gyroSensor.gyroDev.scale
    ∧ (fusion env st).gyroSensor.gyroAnalyseState = st.gyroSensor.gyroAnalyseState
    ∧ (fusion env st).gyroSensor.notchFilterDyn = st.gyroSensor.notchFilterDyn
    ∧ (fusion env st).gyroSensor.lowpass2Filter = st.gyroSensor.lowpass2Filter
    ∧ (fusion env st).gyroSensor.lowpassFilter = st.gyroSensor.lowpassFilter
    ∧ (fusion env st).gyroSensor.notchFilter1 = st.gyroSensor.notchFilter1
    ∧ (fusion env st).gyroSensor.notchFilter2 = st.gyroSensor.notchFilter2
    ∧ (fusion env st).debug = st.debug := by
  simp [fusion]

/-- The fusion stage reads the sensor and its own state only. -/
theorem fusion_congr (st2 : State V R F A K D) (hs : st.gyroSensor = st2.gyroSensor)
    (hk : st.kalman = st2.kalman) :
    (fusion env st).gyroSensor = (fusion env st2).gyroSensor
    ∧ (fusion env st).kalman = (fusion env st2).kalman := by
  simp [fusion, hs, hk]

theorem recording_dynamicActive : env.recording.dynamicActive = env.dynamicActive := rfl

theorem recording_specStaticChain (axis : Axis) :
    specStaticChain env.recording st.recording.gyroSensor axis
      = specStaticChain env st.gyroSensor axis := rfl

theorem recording_specPreFusion (axis : Axis) :
    specPreFusion env.recording st.recording.gyroSensor axis
      = specPreFusion env st.gyroSensor axis := rfl

end Fusion

/-! ## The claims on the gyro filter routine -/

/-- C1: with dynamic filtering inactive, the value the routine stores in
`gyroADCf[axis]` before the fusion stage is
`notch2(notch1(lowpass1(lowpass2(gyroADC[axis] * scale))))`, each stage
applied to the state the sensor holds for that axis; the routine is the
fusion stage run on the state the loop leaves. -/
theorem C1_static_stage_order (env : Env V R F A K D W) (dbg : debugSetFn D W)
    (st : State V R F A K D) (axis : Axis) (h : env.dynamicActive = false) :
    GYRO_FILTER_FUNCTION_NAME env dbg st = fusion env (filterPerAxis env dbg st)
    ∧ (filterPerAxis env dbg st).gyroSensor.gyroDev.gyroADCf.get axis
        = specStaticChain env st.gyroSensor axis :=
  ⟨rfl, filterPerAxis_gyroADCf_inactive env dbg st h axis⟩

theorem C1_static_stage_order_witness :
    (exEnv false).dynamicActive = false
    ∧ (filterPerAxis (exEnv false) (exEnv false).DEBUG_SET exState).gyroSensor.gyroDev.gyroADCf.get
        .Y = specStaticChain (exEnv false) exState.gyroSensor .Y
    ∧ specStaticChain (exEnv false) exState.gyroSensor .Y = -2534 :=
  ⟨rfl, (C1_static_stage_order (exEnv false) (exEnv false).DEBUG_SET exState .Y rfl).2,
    by decide⟩

/-- C2, as stated, fails: with the four static stages disabled and dynamic
filtering off, the routine leaves `(3, -5, 7)` in `gyroADCf` for the input
triple `(6, -10, 14)`, because the fusion stage still runs. -/
theorem C2_counterexample :
    (∀ s v, exStateNull.gyroSensor.lowpass2FilterApplyFn s v = (s, v))
    ∧ (∀ s v, exStateNull.gyroSensor.lowpassFilterApplyFn s v = (s, v))
    ∧ (∀ s v, exStateNull.gyroSensor.notchFilter1ApplyFn s v = (s, v))
    ∧ (∀ s v, exStateNull.gyroSensor.notchFilter2ApplyFn s v = (s, v))
    ∧ (exEnv false).dynamicActive = false
    ∧ (GYRO_FILTER_FUNCTION_NAME (exEnv false) (exEnv false).DEBUG_SET
          exStateNull).gyroSensor.gyroDev.gyroADCf = ⟨3, -5, 7⟩
    ∧ (GYRO_FILTER_FUNCTION_NAME (exEnv false) (exEnv false).DEBUG_SET
          exStateNull).gyroSensor.gyroDev.gyroADCf
        ≠ ⟨scaledInput (exEnv false) exStateNull.gyroSensor .X,
           scaledInput (exEnv false) exStateNull.gyroSensor .Y,
           scaledInput (exEnv false) exStateNull.gyroSensor .Z⟩ :=
  ⟨fun _ _ => rfl, fun _ _ => rfl, fun _ _ => rfl, fun _ _ => rfl, rfl, by decide, by decide⟩

/-- C2, amended: with the four static stages disabled (each apply function
returns its input) and dynamic filtering off, the triple handed to the
fusion stage is the input triple `gyroADC[axis] * scale`, and the triple left
in `gyroADCf` at the end of the tick is the output of `kalman_update` on that
input triple; it is the input triple whenever `kalman_update` returns its
input. -/
theorem C2_identity_before_fusion (env : Env V R F A K D W) (dbg : debugSetFn D W)
    (st : State V R F A K D)
    (hl2 : ∀ s v, (st.gyroSensor.lowpass2FilterApplyFn s v).2 = v)
    (hl1 : ∀ s v, (st.gyroSensor.lowpassFilterApplyFn s v).2 = v)
    (hn1 : ∀ s v, (st.gyroSensor.notchFilter1ApplyFn s v).2 = v)
    (hn2 : ∀ s v, (st.gyroSensor.notchFilter2ApplyFn s v).2 = v)
    (hd : env.dynamicActive = false) :
    (∀ axis, (filterPerAxis env dbg st).gyroSensor.gyroDev.gyroADCf.get axis
        = scaledInput env st.gyroSensor axis)
    ∧ (GYRO_FILTER_FUNCTION_NAME env dbg st).gyroSensor.gyroDev.gyroADCf
        = (env.kalman_update st.kalman
            ⟨scaledInput env st.gyroSensor .X, scaledInput env st.gyroSensor .Y,
             scaledInput env st.gyroSensor .Z⟩).2
    ∧ ((∀ k v, (env.kalman_update k v).2 = v) →
        (GYRO_FILTER_FUNCTION_NAME env dbg st).gyroSensor.gyroDev.gyroADCf
          = ⟨scaledInput env st.gyroSensor .X, scaledInput env st.gyroSensor .Y,
             scaledInput env st.gyroSensor .Z⟩) := by
  have hpre : ∀ axis, (filterPerAxis env dbg st).gyroSensor.gyroDev.gyroADCf.get axis
      = scaledInput env st.gyroSensor axis := by
    intro axis
    rw [filterPerAxis_gyroADCf_inactive env dbg st hd axis]
    simp [specStaticChain, hl2, hl1, hn1, hn2]
  have hfin : (GYRO_FILTER_FUNCTION_NAME env dbg st).gyroSensor.gyroDev.gyroADCf
      = (env.kalman_update st.kalman
          ⟨scaledInput env st.gyroSensor .X, scaledInput env st.gyroSensor .Y,
           scaledInput env st.gyroSensor .Z⟩).2 := by
    unfold GYRO_FILTER_FUNCTION_NAME
    rw [fusion_gyroADCf, hpre, hpre, hpre, (filterPerAxis_frame env dbg st).2.2.2.2.2.2.2.2]
  refine ⟨hpre, hfin, ?_⟩
  intro hk
  rw [hfin, hk]

theorem C2_identity_before_fusion_witness :
    (∀ axis, (filterPerAxis (exEnv false) (exEnv false).DEBUG_SET
          exStateNull).gyroSensor.gyroDev.gyroADCf.get axis
        = scaledInput (exEnv false) exStateNull.gyroSensor axis)
    ∧ (GYRO_FILTER_FUNCTION_NAME (exEnv false) (exEnv false).DEBUG_SET
          exStateNull).gyroSensor.gyroDev.gyroADCf
        = ((exEnv false).kalman_update exStateNull.kalman ⟨6, -10, 14⟩).2 :=
  ⟨(C2_identity_before_fusion (exEnv false) (exEnv false).DEBUG_SET exStateNull
      (fun _ _ => rfl) (fun _ _ => rfl) (fun _ _ => rfl) (fun _ _ => rfl) rfl).1,
   (C2_identity_before_fusion (exEnv false) (exEnv false).DEBUG_SET exStateNull
      (fun _ _ => rfl) (fun _ _ => rfl) (fun _ _ => rfl) (fun _ _ => rfl) rfl).2.1⟩

/-- C4: with dynamic filtering inactive, one tick of the routine leaves the
analyser state and every dynamic-notch state as they were, whatever the
analyser push routine is; the recording analyser has received no sample; and
the value of each axis before fusion is the output of static notch 2. -/
theorem C4_dynamic_stage_skipped (env : Env V R F A K D W) (dbg : debugSetFn D W)
    (st : State V R F A K D) (h : env.dynamicActive = false) :
    (GYRO_FILTER_FUNCTION_NAME env dbg st).gyroSensor.gyroAnalyseState
        = st.gyroSensor.gyroAnalyseState
    ∧ (GYRO_FILTER_FUNCTION_NAME env dbg st).gyroSensor.notchFilterDyn
        = st.gyroSensor.notchFilterDyn
    ∧ (GYRO_FILTER_FUNCTION_NAME env.recording dbg st.recording).gyroSensor.gyroAnalyseState.2
        = []
    ∧ (∀ axis, (filterPerAxis env dbg st).gyroSensor.gyroDev.gyroADCf.get axis
        = specStaticChain env st.gyroSensor axis) := by
  refine ⟨?_, ?_, ?_, fun axis => filterPerAxis_gyroADCf_inactive env dbg st h axis⟩
  · unfold GYRO_FILTER_FUNCTION_NAME
    rw [(fusion_frame env _).2.2.2.1, filterPerAxis_analyse_inactive env dbg st h]
  · unfold GYRO_FILTER_FUNCTION_NAME
    rw [(fusion_frame env _).2.2.2.2.1, filterPerAxis_notchFilterDyn_inactive env dbg st h]
  · unfold GYRO_FILTER_FUNCTION_NAME
    rw [(fusion_frame env.recording _).2.2.2.1,
      filterPerAxis_analyse_inactive env.recording dbg st.recording h]
    rfl

theorem C4_dynamic_stage_skipped_witness :
    (exEnv false).dynamicActive = false
    ∧ (GYRO_FILTER_FUNCTION_NAME (exEnv false) (exEnv false).DEBUG_SET
          exStateOther).gyroSensor.gyroAnalyseState = [(Axis.Z, 4)]
    ∧ (GYRO_FILTER_FUNCTION_NAME (exEnv false) (exEnv false).DEBUG_SET
          exStateOther).gyroSensor.notchFilterDyn = ⟨70, 8, 90⟩ :=
  ⟨rfl,
   (C4_dynamic_stage_skipped (exEnv false) (exEnv false).DEBUG_SET exStateOther rfl).1,
   (C4_dynamic_stage_skipped (exEnv false) (exEnv false).DEBUG_SET exStateOther rfl).2.1⟩

/-- C5: with dynamic filtering active, one tick pushes to the analyser, for
`X`, `Y`, `Z` in turn, the output of static notch 2 of that axis and nothing
else (the recording analyser holds exactly these three samples, one per
axis), and the value of each axis before fusion is the dynamic notch applied
to that same value. -/
theorem C5_analyser_gets_pre_notch_sample (env : Env V R F A K D W) (dbg : debugSetFn D W)
    (st : State V R F A K D) (h : env.dynamicActive = true) :
    (GYRO_FILTER_FUNCTION_NAME env dbg st).gyroSensor.gyroAnalyseState
        = env.gyroDataAnalysePush
            (env.gyroDataAnalysePush
              (env.gyroDataAnalysePush st.gyroSensor.gyroAnalyseState
                .X (specStaticChain env st.gyroSensor .X))
              .Y (specStaticChain env st.gyroSensor .Y))
            .Z (specStaticChain env st.gyroSensor .Z)
    ∧ (GYRO_FILTER_FUNCTION_NAME env.recording dbg st.recording).gyroSensor.gyroAnalyseState.2
        = [(Axis.X, specStaticChain env st.gyroSensor .X),
           (Axis.Y, specStaticChain env st.gyroSensor .Y),
           (Axis.Z, specStaticChain env st.gyroSensor .Z)]
    ∧ (∀ axis, (filterPerAxis env dbg st).gyroSensor.gyroDev.gyroADCf.get axis
        = (st.gyroSensor.notchFilterDynApplyFn (st.gyroSensor.notchFilterDyn.get axis)
            (specStaticChain env st.gyroSensor axis)).2) := by
  have h12 : env.USE_GYRO_DATA_ANALYSE = true ∧ env.isDynamicFilterActive = true := by
    simpa [Env.dynamicActive] using h
  refine ⟨?_, ?_, fun axis => filterPerAxis_gyroADCf_active env dbg st h12.1 h12.2 axis⟩
  · unfold GYRO_FILTER_FUNCTION_NAME
    rw [(fusion_frame env _).2.2.2.1, filterPerAxis_analyse_active env dbg st h12.1 h12.2]
  · unfold GYRO_FILTER_FUNCTION_NAME
    rw [(fusion_frame env.recording _).2.2.2.1,
      filterPerAxis_analyse_active env.recording dbg st.recording h12.1 h12.2]
    rfl

theorem C5_analyser_gets_pre_notch_sample_witness :
    (exEnv true).dynamicActive = true
    ∧ (GYRO_FILTER_FUNCTION_NAME (exEnv true) (exEnv true).DEBUG_SET
          exState).gyroSensor.gyroAnalyseState
        = [(Axis.X, -1201), (Axis.Y, -2534), (Axis.Z, -3627)]
    ∧ (filterPerAxis (exEnv true) (exEnv true).DEBUG_SET exState).gyroSensor.gyroDev.gyroADCf.get
        .X = 5 * -1201 + 7 :=
  ⟨rfl,
   (C5_analyser_gets_pre_notch_sample (exEnv true) (exEnv true).DEBUG_SET exState rfl).1,
   (C5_analyser_gets_pre_notch_sample (exEnv true) (exEnv true).DEBUG_SET exState rfl).2.2 .X⟩

/-- C6: the routine calls `kalman_update` once, after the loop over the
three axes, on the triple (filtered X, filtered Y, filtered Z): the loop
leaves the fusion state alone, the final fusion state is the one returned
by that single call, the recording fusion stage holds exactly that one
input triple, and the final `gyroADCf` is the output triple, component for
component. -/
theorem C6_single_fusion_call (env : Env V R F A K D W) (dbg : debugSetFn D W)
    (st : State V R F A K D) :
    (filterPerAxis env dbg st).kalman = st.kalman
    ∧ (GYRO_FILTER_FUNCTION_NAME env dbg st).kalman
        = (env.kalman_update st.kalman
            ⟨specPreFusion env st.gyroSensor .X, specPreFusion env st.gyroSensor .Y,
             specPreFusion env st.gyroSensor .Z⟩).1
    ∧ (GYRO_FILTER_FUNCTION_NAME env.recording dbg st.recording).kalman.2
        = [⟨specPreFusion env st.gyroSensor .X, specPreFusion env st.gyroSensor .Y,
            specPreFusion env st.gyroSensor .Z⟩]
    ∧ (∀ axis, (filterPerAxis env dbg st).gyroSensor.gyroDev.gyroADCf.get axis
        = specPreFusion env st.gyroSensor axis)
    ∧ (∀ axis, (GYRO_FILTER_FUNCTION_NAME env dbg st).gyroSensor.gyroDev.gyroADCf.get axis
        = (env.kalman_update st.kalman
            ⟨specPreFusion env st.gyroSensor .X, specPreFusion env st.gyroSensor .Y,
             specPreFusion env st.gyroSensor .Z⟩).2.get axis) := by
  have hk := (filterPerAxis_frame env dbg st).2.2.2.2.2.2.2.2
  refine ⟨hk, ?_, ?_, fun axis => filterPerAxis_gyroADCf env dbg st axis, ?_⟩
  · unfold GYRO_FILTER_FUNCTION_NAME
    rw [fusion_kalman, hk, filterPerAxis_gyroADCf, filterPerAxis_gyroADCf,
      filterPerAxis_gyroADCf]
  · unfold GYRO_FILTER_FUNCTION_NAME
    rw [fusion_kalman, (filterPerAxis_frame env.recording dbg st.recording).2.2.2.2.2.2.2.2,
      filterPerAxis_gyroADCf, filterPerAxis_gyroADCf, filterPerAxis_gyroADCf]
    rfl
  · intro axis
    unfold GYRO_FILTER_FUNCTION_NAME
    rw [fusion_gyroADCf, hk, filterPerAxis_gyroADCf, filterPerAxis_gyroADCf,
      filterPerAxis_gyroADCf]

/-- C9: one tick of the routine is the fusion stage run on the state the
loop leaves.  For two sensor states that agree on what belongs to axis `a`
(its raw sample, the scale, the apply functions and the five filter states
of `a`) and differ at will elsewhere, the value of `a` handed to the fusion
stage is the same, and the five filter states of `a` after the tick of the
routine are the same.  After the tick each static stage state of `a` is the
result of one application of its apply function to the state before the
tick; the dynamic notch state of `a` is the result of one application when
dynamic filtering is active and is untouched otherwise. -/
theorem C9_axis_isolation (env : Env V R F A K D W) (dbg1 dbg2 : debugSetFn D W)
    (st1 st2 : State V R F A K D) (a : Axis)
    (hadc : st1.gyroSensor.gyroDev.gyroADC.get a = st2.gyroSensor.gyroDev.gyroADC.get a)
    (hscale : st1.gyroSensor.gyroDev.scale = st2.gyroSensor.gyroDev.scale)
    (hf1 : st1.gyroSensor.lowpass2FilterApplyFn = st2.gyroSensor.lowpass2FilterApplyFn)
    (hf2 : st1.gyroSensor.lowpassFilterApplyFn = st2.gyroSensor.lowpassFilterApplyFn)
    (hf3 : st1.gyroSensor.notchFilter1ApplyFn = st2.gyroSensor.notchFilter1ApplyFn)
    (hf4 : st1.gyroSensor.notchFilter2ApplyFn = st2.gyroSensor.notchFilter2ApplyFn)
    (hf5 : st1.gyroSensor.notchFilterDynApplyFn = st2.gyroSensor.notchFilterDynApplyFn)
    (hs1 : st1.gyroSensor.lowpass2Filter.get a = st2.gyroSensor.lowpass2Filter.get a)
    (hs2 : st1.gyroSensor.lowpassFilter.get a = st2.gyroSensor.lowpassFilter.get a)
    (hs3 : st1.gyroSensor.notchFilter1.get a = st2.gyroSensor.notchFilter1.get a)
    (hs4 : st1.gyroSensor.notchFilter2.get a = st2.gyroSensor.notchFilter2.get a)
    (hs5 : st1.gyroSensor.notchFilterDyn.get a = st2.gyroSensor.notchFilterDyn.get a) :
    (GYRO_FILTER_FUNCTION_NAME env dbg1 st1 = fusion env (filterPerAxis env dbg1 st1)
      ∧ GYRO_FILTER_FUNCTION_NAME env dbg2 st2 = fusion env (filterPerAxis env dbg2 st2))
    ∧ ((filterPerAxis env dbg1 st1).gyroSensor.gyroDev.gyroADCf.get a
        = (filterPerAxis env dbg2 st2).gyroSensor.gyroDev.gyroADCf.get a
      ∧ (GYRO_FILTER_FUNCTION_NAME env dbg1 st1).gyroSensor.lowpass2Filter.get a
        = (GYRO_FILTER_FUNCTION_NAME env dbg2 st2).gyroSensor.lowpass2Filter.get a
      ∧ (GYRO_FILTER_FUNCTION_NAME env dbg1 st1).gyroSensor.lowpassFilter.get a
        = (GYRO_FILTER_FUNCTION_NAME env dbg2 st2).gyroSensor.lowpassFilter.get a
      ∧ (GYRO_FILTER_FUNCTION_NAME env dbg1 st1).gyroSensor.notchFilter1.get a
        = (GYRO_FILTER_FUNCTION_NAME env dbg2 st2).gyroSensor.notchFilter1.get a
      ∧ (GYRO_FILTER_FUNCTION_NAME env dbg1 st1).gyroSensor.notchFilter2.get a
        = (GYRO_FILTER_FUNCTION_NAME env dbg2 st2).gyroSensor.notchFilter2.get a
      ∧ (GYRO_FILTER_FUNCTION_NAME env dbg1 st1).gyroSensor.notchFilterDyn.get a
        = (GYRO_FILTER_FUNCTION_NAME env dbg2 st2).gyroSensor.notchFilterDyn.get a)
    ∧ ((GYRO_FILTER_FUNCTION_NAME env dbg1 st1).gyroSensor.lowpass2Filter.get a
        = (st1.gyroSensor.lowpass2FilterApplyFn (st1.gyroSensor.lowpass2Filter.get a)
            (specStageInput env st1.gyroSensor a).1).1
      ∧ (GYRO_FILTER_FUNCTION_NAME env dbg1 st1).gyroSensor.lowpassFilter.get a
        = (st1.gyroSensor.lowpassFilterApplyFn (st1.gyroSensor.lowpassFilter.get a)
            (specStageInput env st1.gyroSensor a).2.1).1
      ∧ (GYRO_FILTER_FUNCTION_NAME env dbg1 st1).gyroSensor.notchFilter1.get a
        = (st1.gyroSensor.notchFilter1ApplyFn (st1.gyroSensor.notchFilter1.get a)
            (specStageInput env st1.gyroSensor a).2.2.1).1
      ∧ (GYRO_FILTER_FUNCTION_NAME env dbg1 st1).gyroSensor.notchFilter2.get a
        = (st1.gyroSensor.notchFilter2ApplyFn (st1.gyroSensor.notchFilter2.get a)
            (specStageInput env st1.gyroSensor a).2.2.2).1
      ∧ (GYRO_FILTER_FUNCTION_NAME env dbg1 st1).gyroSensor.notchFilterDyn.get a
        = if env.dynamicActive then
            (st1.gyroSensor.notchFilterDynApplyFn (st1.gyroSensor.notchFilterDyn.get a)
              (specStaticChain env st1.gyroSensor a)).1
          else st1.gyroSensor.notchFilterDyn.get a) := by
  have hdyn : ∀ (dbg : debugSetFn D W) (st : State V R F A K D),
      (filterPerAxis env dbg st).gyroSensor.notchFilterDyn.get a
        = if env.dynamicActive then
            (st.gyroSensor.notchFilterDynApplyFn (st.gyroSensor.notchFilterDyn.get a)
              (specStaticChain env st.gyroSensor a)).1
          else st.gyroSensor.notchFilterDyn.get a := by
    intro dbg st
    cases h : env.dynamicActive
    · simp [filterPerAxis_notchFilterDyn_inactive env dbg st h]
    · have h12 : env.USE_GYRO_DATA_ANALYSE = true ∧ env.isDynamicFilterActive = true := by
        simpa [Env.dynamicActive] using h
      simpa [specDynNotch] using
        filterPerAxis_notchFilterDyn_active env dbg st h12.1 h12.2 a
  have hchain : specStaticChain env st1.gyroSensor a = specStaticChain env st2.gyroSensor a := by
    simp [specStaticChain, scaledInput, hadc, hscale, hf1, hf2, hf3, hf4, hs1, hs2, hs3, hs4]
  have hin : specStageInput env st1.gyroSensor a = specStageInput env st2.gyroSensor a := by
    simp [specStageInput, scaledInput, hadc, hscale, hf1, hf2, hf3, hs1, hs2, hs3]
  obtain ⟨a1, a2, a3, a4⟩ := filterPerAxis_static_states env dbg1 st1 a
  obtain ⟨b1, b2, b3, b4⟩ := filterPerAxis_static_states env dbg2 st2 a
  obtain ⟨_, _, _, _, p5, p1, p2, p3, p4, _⟩ := fusion_frame env (filterPerAxis env dbg1 st1)
  obtain ⟨_, _, _, _, q5, q1, q2, q3, q4, _⟩ := fusion_frame env (filterPerAxis env dbg2 st2)
  have r1 : ∀ (dbg : debugSetFn D W) (st : State V R F A K D),
      GYRO_FILTER_FUNCTION_NAME env dbg st = fusion env (filterPerAxis env dbg st) :=
    fun _ _ => rfl
  rw [r1 dbg1 st1, r1 dbg2 st2, p1, p2, p3, p4, p5, q1, q2, q3, q4, q5]
  refine ⟨⟨rfl, rfl⟩, ⟨?_, ?_, ?_, ?_, ?_, ?_⟩, a1, a2, a3, a4, hdyn dbg1 st1⟩
  · rw [filterPerAxis_gyroADCf, filterPerAxis_gyroADCf]
    simp [specPreFusion, specDynNotch, hchain, hf5, hs5]
  · rw [a1, b1, hin, hf1, hs1]
  · rw [a2, b2, hin, hf2, hs2]
  · rw [a3, b3, hin, hf3, hs3]
  · rw [a4, b4, hin, hf4, hs4]
  · rw [hdyn dbg1 st1, hdyn dbg2 st2, hchain, hf5, hs5]

theorem C9_axis_isolation_witness :
    ((filterPerAxis (exEnv true) (exEnv true).DEBUG_SET exState).gyroSensor.gyroDev.gyroADCf.get
          .Y
        = (filterPerAxis (exEnv true) (fun d _ _ _ => d)
            exStateOther).gyroSensor.gyroDev.gyroADCf.get .Y
      ∧ (GYRO_FILTER_FUNCTION_NAME (exEnv true) (exEnv true).DEBUG_SET
            exState).gyroSensor.lowpass2Filter.get .Y
        = (GYRO_FILTER_FUNCTION_NAME (exEnv true) (fun d _ _ _ => d)
            exStateOther).gyroSensor.lowpass2Filter.get .Y
      ∧ (GYRO_FILTER_FUNCTION_NAME (exEnv true) (exEnv true).DEBUG_SET
            exState).gyroSensor.lowpassFilter.get .Y
        = (GYRO_FILTER_FUNCTION_NAME (exEnv true) (fun d _ _ _ => d)
            exStateOther).gyroSensor.lowpassFilter.get .Y
      ∧ (GYRO_FILTER_FUNCTION_NAME (exEnv true) (exEnv true).DEBUG_SET
            exState).gyroSensor.notchFilter1.get .Y
        = (GYRO_FILTER_FUNCTION_NAME (exEnv true) (fun d _ _ _ => d)
            exStateOther).gyroSensor.notchFilter1.get .Y
      ∧ (GYRO_FILTER_FUNCTION_NAME (exEnv true) (exEnv true).DEBUG_SET
            exState).gyroSensor.notchFilter2.get .Y
        = (GYRO_FILTER_FUNCTION_NAME (exEnv true) (fun d _ _ _ => d)
            exStateOther).gyroSensor.notchFilter2.get .Y
      ∧ (GYRO_FILTER_FUNCTION_NAME (exEnv true) (exEnv true).DEBUG_SET
            exState).gyroSensor.notchFilterDyn.get .Y
        = (GYRO_FILTER_FUNCTION_NAME (exEnv true) (fun d _ _ _ => d)
            exStateOther).gyroSensor.notchFilterDyn.get .Y)
    ∧ (GYRO_FILTER_FUNCTION_NAME (exEnv true) (exEnv true).DEBUG_SET
          exState).gyroSensor.lowpass2Filter.get .Y = -10
    ∧ (GYRO_FILTER_FUNCTION_NAME (exEnv true) (exEnv true).DEBUG_SET
          exState).gyroSensor.notchFilterDyn.get .Y = -2534
    ∧ (filterPerAxis (exEnv true) (exEnv true).DEBUG_SET exState).gyroSensor.gyroDev.gyroADCf.get
          .X
        ≠ (filterPerAxis (exEnv true) (fun d _ _ _ => d)
            exStateOther).gyroSensor.gyroDev.gyroADCf.get .X :=
  ⟨(C9_axis_isolation (exEnv true) (exEnv true).DEBUG_SET (fun d _ _ _ => d)
      exState exStateOther .Y rfl rfl rfl rfl rfl rfl rfl rfl rfl rfl rfl rfl).2.1,
   by decide, by decide, by decide⟩

/-- C10: the two instantiations of the template, `filterGyro` (the debug
macro expands to nothing) and `filterGyroDebug` (the debug macro is
`DEBUG_SET`), leave the same sensor (the final `gyroADCf` triple, every
filter state and the analyser state) and the same fusion state, and neither
changes `gyroADC`, `gyroADCRaw` or `scale`. -/
theorem C10_debug_instantiations_agree (env : Env V R F A K D W) (st : State V R F A K D) :
    (filterGyro env st).gyroSensor = (filterGyroDebug env st).gyroSensor
    ∧ (filterGyro env st).kalman = (filterGyroDebug env st).kalman
    ∧ ((filterGyro env st).gyroSensor.gyroDev.gyroADC = st.gyroSensor.gyroDev.gyroADC
      ∧ (filterGyro env st).gyroSensor.gyroDev.gyroADCRaw = st.gyroSensor.gyroDev.gyroADCRaw
      ∧ (filterGyro env st).gyroSensor.gyroDev.scale = st.gyroSensor.gyroDev.scale)
    ∧ ((filterGyroDebug env st).gyroSensor.gyroDev.gyroADC = st.gyroSensor.gyroDev.gyroADC
      ∧ (filterGyroDebug env st).gyroSensor.gyroDev.gyroADCRaw
          = st.gyroSensor.gyroDev.gyroADCRaw
      ∧ (filterGyroDebug env st).gyroSensor.gyroDev.scale = st.gyroSensor.gyroDev.scale) := by
  have hframe : ∀ dbg : debugSetFn D W,
      (GYRO_FILTER_FUNCTION_NAME env dbg st).gyroSensor.gyroDev.gyroADC
          = st.gyroSensor.gyroDev.gyroADC
      ∧ (GYRO_FILTER_FUNCTION_NAME env dbg st).gyroSensor.gyroDev.gyroADCRaw
          = st.gyroSensor.gyroDev.gyroADCRaw
      ∧ (GYRO_FILTER_FUNCTION_NAME env dbg st).gyroSensor.gyroDev.scale
          = st.gyroSensor.gyroDev.scale := by
    intro dbg
    unfold GYRO_FILTER_FUNCTION_NAME
    obtain ⟨f1, f2, f3, _⟩ := fusion_frame env (filterPerAxis env dbg st)
    obtain ⟨g1, g2, g3, _⟩ := filterPerAxis_frame env dbg st
    exact ⟨f1.trans g1, f2.trans g2, f3.trans g3⟩
  have hsens := filterPerAxis_gyroSensor_debug env (fun d _ _ _ => d) st env.DEBUG_SET
  have hkal : (filterPerAxis env (fun d _ _ _ => d) st).kalman
      = (filterPerAxis env env.DEBUG_SET st).kalman := by
    rw [(filterPerAxis_frame env _ st).2.2.2.2.2.2.2.2,
      (filterPerAxis_frame env env.DEBUG_SET st).2.2.2.2.2.2.2.2]
  obtain ⟨c1, c2⟩ := fusion_congr env _ _ hsens hkal
  exact ⟨c1, c2, hframe _, hframe _⟩

end GyroFilter

/-! # The claims on the PID constants and sum limits -/

namespace Pid

theorem constrainf_abs_le (amt : ℚ) (limit : Nat) :
    |constrainf amt (-(limit : ℚ)) limit| ≤ limit := by
  have h0 : (0 : ℚ) ≤ limit := Nat.cast_nonneg limit
  unfold constrainf
  split_ifs with h1 h2
  · rw [abs_neg, abs_of_nonneg h0]
  · rw [abs_of_nonneg h0]
  · rw [abs_le]
    exact ⟨not_lt.mp h1, not_lt.mp h2⟩

theorem constrain_bounds (amt low high : Nat) (h : low ≤ high) :
    low ≤ constrain amt low high ∧ constrain amt low high ≤ high := by
  unfold constrain
  split_ifs with h1 h2
  · exact ⟨le_refl _, h⟩
  · exact ⟨h, le_refl _⟩
  · exact ⟨not_lt.mp h1, not_lt.mp h2⟩

/-- C3: for every profile, stabilisation state and every P, I, D, F
contributions, the `Sum` the loop leaves for roll and pitch is at most
`pidSumLimit` in absolute value and the `Sum` for yaw at most
`pidSumLimitYaw`. -/
theorem C3_sum_clamped (pidProfile : pidProfile_t) (state : pidStabilisationState_e)
    (terms : pidIndex_e → pidTerms) :
    |(pidController pidProfile state terms .PID_ROLL).Sum| ≤ pidProfile.pidSumLimit
    ∧ |(pidController pidProfile state terms .PID_PITCH).Sum| ≤ pidProfile.pidSumLimit
    ∧ |(pidController pidProfile state terms .PID_YAW).Sum| ≤ pidProfile.pidSumLimitYaw := by
  cases state
  · simp [pidController]
  · exact ⟨constrainf_abs_le _ _, constrainf_abs_le _ _, constrainf_abs_le _ _⟩

/-- C7: the limit range is `[100, 1000]`; after normalization both sum
limits of every profile lie in `[PIDSUM_LIMIT_MIN, PIDSUM_LIMIT_MAX]`; the
default limits 500 and 400 lie in that range and normalization keeps them. -/
theorem C7_limits_in_range (pidProfile : pidProfile_t) :
    (PIDSUM_LIMIT_MIN = 100 ∧ PIDSUM_LIMIT_MAX = 1000)
    ∧ (PIDSUM_LIMIT_MIN ≤ (pidProfileNormalize pidProfile).pidSumLimit
      ∧ (pidProfileNormalize pidProfile).pidSumLimit ≤ PIDSUM_LIMIT_MAX)
    ∧ (PIDSUM_LIMIT_MIN ≤ (pidProfileNormalize pidProfile).pidSumLimitYaw
      ∧ (pidProfileNormalize pidProfile).pidSumLimitYaw ≤ PIDSUM_LIMIT_MAX)
    ∧ (PIDSUM_LIMIT = 500 ∧ PIDSUM_LIMIT_YAW = 400)
    ∧ pidProfileNormalize defaultProfile = defaultProfile := by
  have hmm : PIDSUM_LIMIT_MIN ≤ PIDSUM_LIMIT_MAX := by decide
  exact ⟨⟨rfl, rfl⟩, constrain_bounds _ _ _ hmm, constrain_bounds _ _ _ hmm, ⟨rfl, rfl⟩,
    by decide⟩

/-- C8: read as exact rationals, the feedforward scale `0.013754` is 26
times the D-term scale `0.000529`. -/
theorem C8_feedforward_scale : FEEDFORWARD_SCALE = 26 * DTERM_SCALE := by
  norm_num [FEEDFORWARD_SCALE, DTERM_SCALE]

end Pid
